import Mathlib

/-!
Shallow embedding of the tiktok.js repository and proofs about its
session handling, authentication flow and gesture pacing.

Embedded sources:
- `src/client.ts` (`TikTokClient`: hashClientId, getUserSessionPath,
  getSessionFilePath, saveSession, loadSession, close, initialize, authenticate)
- `src/gesture-engine.ts` (`GestureEngine`: constructor/getInstance singleton,
  waitRandomTime, scrollPage, typeText, click)
- `src/config.ts` (`URLs`, `Paths` constants)

The browser page is modelled as an explicit value; side effects (navigation,
typing, clicking, waiting, file writes) are recorded as an event trace.
Node `crypto` sha256 is modelled by a full SHA-256 implementation over `Nat`.
JavaScript numbers are modelled as rationals.
-/

namespace TikTokJS

namespace SHA256

/-- Addition of two 32-bit words, wrapping modulo 2^32. -/
def add32 (a b : Nat) : Nat := (a + b) % 2 ^ 32

/-- Right rotation of a 32-bit word by `n` places. -/
def rotr (n w : Nat) : Nat := ((w >>> n) ||| (w <<< (32 - n))) % 2 ^ 32

/-- Logical right shift. -/
def shr (n w : Nat) : Nat := w >>> n

/-- Bitwise complement within 32 bits. -/
def compl32 (w : Nat) : Nat := w ^^^ 0xffffffff

/-- The SHA-256 choice function. -/
def ch (x y z : Nat) : Nat := (x &&& y) ^^^ (compl32 x &&& z)

/-- The SHA-256 majority function. -/
def maj (x y z : Nat) : Nat := (x &&& y) ^^^ (x &&& z) ^^^ (y &&& z)

/-- Big sigma-0 compression function. -/
def bigSigma0 (w : Nat) : Nat := rotr 2 w ^^^ rotr 13 w ^^^ rotr 22 w

/-- Big sigma-1 compression function. -/
def bigSigma1 (w : Nat) : Nat := rotr 6 w ^^^ rotr 11 w ^^^ rotr 25 w

/-- Small sigma-0 message schedule function. -/
def smallSigma0 (w : Nat) : Nat := rotr 7 w ^^^ rotr 18 w ^^^ shr 3 w

/-- Small sigma-1 message schedule function. -/
def smallSigma1 (w : Nat) : Nat := rotr 17 w ^^^ rotr 19 w ^^^ shr 10 w

/-- The 64 SHA-256 round constants, in eight groups of eight. -/
def K : List Nat :=
  [0x428a2f98, 0x71374491, 0xb5c0fbcf, 0xe9b5dba5, 0x3956c25b, 0x59f111f1, 0x923f82a4, 0xab1c5ed5] ++
  [0xd807aa98, 0x12835b01, 0x243185be, 0x550c7dc3, 0x72be5d74, 0x80deb1fe, 0x9bdc06a7, 0xc19bf174] ++
  [0xe49b69c1, 0xefbe4786, 0x0fc19dc6, 0x240ca1cc, 0x2de92c6f, 0x4a7484aa, 0x5cb0a9dc, 0x76f988da] ++
  [0x983e5152, 0xa831c66d, 0xb00327c8, 0xbf597fc7, 0xc6e00bf3, 0xd5a79147, 0x06ca6351, 0x14292967] ++
  [0x27b70a85, 0x2e1b2138, 0x4d2c6dfc, 0x53380d13, 0x650a7354, 0x766a0abb, 0x81c2c92e, 0x92722c85] ++
  [0xa2bfe8a1, 0xa81a664b, 0xc24b8b70, 0xc76c51a3, 0xd192e819, 0xd6990624, 0xf40e3585, 0x106aa070] ++
  [0x19a4c116, 0x1e376c08, 0x2748774c, 0x34b0bcb5, 0x391c0cb3, 0x4ed8aa4a, 0x5b9cca4f, 0x682e6ff3] ++
  [0x748f82ee, 0x78a5636f, 0x84c87814, 0x8cc70208, 0x90befffa, 0xa4506ceb, 0xbef9a3f7, 0xc67178f2]

/-- The eight-word SHA-256 working state. -/
structure Hash8 where
  a : Nat
  b : Nat
  c : Nat
  d : Nat
  e : Nat
  f : Nat
  g : Nat
  h : Nat
  deriving DecidableEq

/-- The SHA-256 initial hash value. -/
def initH : Hash8 :=
  ⟨0x6a09e667, 0xbb67ae85, 0x3c6ef372, 0xa54ff53a, 0x510e527f, 0x9b05688c, 0x1f83d9ab, 0x5be0cd19⟩

/-- One SHA-256 compression round, consuming one (round constant, schedule word) pair. -/
def stepRound (s : Hash8) (kw : Nat × Nat) : Hash8 :=
  let t1 := add32 s.h (add32 (bigSigma1 s.e) (add32 (ch s.e s.f s.g) (add32 kw.1 kw.2)))
  let t2 := add32 (bigSigma0 s.a) (maj s.a s.b s.c)
  ⟨add32 t1 t2, s.a, s.b, s.c, add32 s.d t1, s.e, s.f, s.g⟩

/-- Big-endian 64-bit encoding of a natural number as eight bytes. -/
def be64 (n : Nat) : List Nat :=
  [n >>> 56 % 256, n >>> 48 % 256, n >>> 40 % 256, n >>> 32 % 256,
   n >>> 24 % 256, n >>> 16 % 256, n >>> 8 % 256, n % 256]

/-- SHA-256 padding: append 0x80, zero bytes, and the 64-bit bit length. -/
def padBytes (msg : List Nat) : List Nat :=
  let zeros := (64 - (msg.length + 9) % 64) % 64
  msg ++ 0x80 :: List.replicate zeros 0 ++ be64 (8 * msg.length)

/-- Groups a byte list into big-endian 32-bit words, with an explicit fuel argument. -/
def toWordsF : Nat → List Nat → List Nat
  | 0, _ => []
  | _ + 1, [] => []
  | fuel + 1, b0 :: b1 :: b2 :: b3 :: rest =>
      (b0 <<< 24 ||| b1 <<< 16 ||| b2 <<< 8 ||| b3) :: toWordsF fuel rest
  | _ + 1, _ => []

/-- Extends a 16-word block to the 64-word message schedule, with fuel 48. -/
def extendW : Nat → List Nat → List Nat
  | 0, ws => ws
  | fuel + 1, ws =>
      let i := ws.length
      let w := add32 (add32 (smallSigma1 (ws.getD (i - 2) 0)) (ws.getD (i - 7) 0))
                     (add32 (smallSigma0 (ws.getD (i - 15) 0)) (ws.getD (i - 16) 0))
      extendW fuel (ws ++ [w])

/-- Splits a byte list into 64-byte blocks, with an explicit fuel argument. -/
def toBlocksF : Nat → List Nat → List (List Nat)
  | 0, _ => []
  | _ + 1, [] => []
  | fuel + 1, l => l.take 64 :: toBlocksF fuel (l.drop 64)

/-- Splits a byte list into 64-byte blocks. -/
def toBlocks (l : List Nat) : List (List Nat) := toBlocksF l.length l

/-- Processes one 64-byte block: schedule, 64 rounds, and feed-forward addition. -/
def procBlock (hs : Hash8) (block : List Nat) : Hash8 :=
  let ws := extendW 48 (toWordsF 16 block)
  let c := (K.zip ws).foldl stepRound hs
  ⟨add32 hs.a c.a, add32 hs.b c.b, add32 hs.c c.c, add32 hs.d c.d,
   add32 hs.e c.e, add32 hs.f c.f, add32 hs.g c.g, add32 hs.h c.h⟩

/-- SHA-256 over a byte list, producing the eight-word digest state. -/
def sha256Words (msg : List Nat) : Hash8 :=
  (toBlocks (padBytes msg)).foldl procBlock initH

/-- Lowercase hexadecimal digit for a nibble value. -/
def hexDigit (n : Nat) : Char :=
  if n < 10 then Char.ofNat (48 + n) else Char.ofNat (87 + n)

/-- Eight lowercase hex characters of a 32-bit word, most significant nibble first. -/
def wordToHex (w : Nat) : List Char :=
  [hexDigit (w >>> 28 % 16), hexDigit (w >>> 24 % 16), hexDigit (w >>> 20 % 16),
   hexDigit (w >>> 16 % 16), hexDigit (w >>> 12 % 16), hexDigit (w >>> 8 % 16),
   hexDigit (w >>> 4 % 16), hexDigit (w % 16)]

/-- Lowercase hex rendering of the whole digest, as the Node `digest(hex)` call returns. -/
def digestHexChars (h : Hash8) : List Char :=
  wordToHex h.a ++ wordToHex h.b ++ wordToHex h.c ++ wordToHex h.d ++
  wordToHex h.e ++ wordToHex h.f ++ wordToHex h.g ++ wordToHex h.h

/-- SHA-256 hex digest of a byte list. -/
def sha256Hex (msg : List Nat) : String :=
  String.mk (digestHexChars (sha256Words msg))

/-- UTF-8 encoding of one character, as Node `hash.update(string)` encodes its input. -/
def utf8Char (c : Char) : List Nat :=
  let n := c.toNat
  if n < 0x80 then [n]
  else if n < 0x800 then
    [0xC0 ||| (n >>> 6), 0x80 ||| (n &&& 0x3F)]
  else if n < 0x10000 then
    [0xE0 ||| (n >>> 12), 0x80 ||| ((n >>> 6) &&& 0x3F), 0x80 ||| (n &&& 0x3F)]
  else
    [0xF0 ||| (n >>> 18), 0x80 ||| ((n >>> 12) &&& 0x3F),
     0x80 ||| ((n >>> 6) &&& 0x3F), 0x80 ||| (n &&& 0x3F)]

/-- UTF-8 byte sequence of a string. -/
def strBytes (s : String) : List Nat := s.data.flatMap utf8Char

end SHA256

/-! URL constants from `src/config.ts`. -/

namespace URLs

def base : String := "https://www.tiktok.com/"

def login : String := "https://www.tiktok.com/login/phone-or-email/email"

def upload : String := "https://www.tiktok.com/upload"

def upload_creator_center : String := "https://www.tiktok.com/tiktokstudio/upload?from=creator_center"

end URLs

/-! Path constants from `src/config.ts`. -/

namespace Paths

def sessionBase : String := "./.tiktokjs_auth/sessions"

def cookiesFile : String := "cookies.json"

end Paths

/-- Tests whether `pat` occurs at the head of a character list. -/
def charsStartWith : List Char → List Char → Bool
  | [], _ => true
  | _ :: _, [] => false
  | p :: ps, c :: cs => p == c && charsStartWith ps cs

/-- Tests whether `pat` occurs anywhere in a character list. -/
def charsContain (pat : List Char) : List Char → Bool
  | [] => charsStartWith pat []
  | c :: cs => charsStartWith pat (c :: cs) || charsContain pat cs

/-- Model of the JavaScript `s.includes(pat)` substring test used by `authenticate`. -/
def strIncludes (s pat : String) : Bool := charsContain pat.data s.data

/-- JSON values, modelling the serialization shape handled by
`JSON.stringify` and `JSON.parse` in `saveSession` and `loadSession`. -/
inductive Json where
  | null : Json
  | bool : Bool → Json
  | num : ℚ → Json
  | str : String → Json
  | arr : List Json → Json
  | obj : List (String × Json) → Json

/-- One browser cookie, with the fields named in the specification
(name, value, domain, path, expiry, httpOnly and secure flags). -/
structure Cookie where
  name : String
  value : String
  domain : String
  path : String
  expires : ℚ
  httpOnly : Bool
  secure : Bool
  deriving DecidableEq

/-- JSON encoding of one cookie, as `JSON.stringify` renders it. -/
def encodeCookie (c : Cookie) : Json :=
  .obj [("name", .str c.name), ("value", .str c.value), ("domain", .str c.domain),
        ("path", .str c.path), ("expires", .num c.expires),
        ("httpOnly", .bool c.httpOnly), ("secure", .bool c.secure)]

/-- JSON encoding of a cookie array, the exact file content `saveSession` writes. -/
def encodeRecord (cs : List Cookie) : Json := .arr (cs.map encodeCookie)

/-- Extracts a JSON string value. -/
def asStr : Json → Option String
  | .str s => some s
  | _ => none

/-- Extracts a JSON number value. -/
def asNum : Json → Option ℚ
  | .num q => some q
  | _ => none

/-- Extracts a JSON boolean value. -/
def asBool : Json → Option Bool
  | .bool b => some b
  | _ => none

/-- JSON decoding of one cookie, as `JSON.parse` recovers it. -/
def decodeCookie (j : Json) : Option Cookie :=
  match j with
  | .obj fields => do
      let n ← (fields.lookup "name").bind asStr
      let v ← (fields.lookup "value").bind asStr
      let d ← (fields.lookup "domain").bind asStr
      let p ← (fields.lookup "path").bind asStr
      let e ← (fields.lookup "expires").bind asNum
      let ho ← (fields.lookup "httpOnly").bind asBool
      let se ← (fields.lookup "secure").bind asBool
      pure ⟨n, v, d, p, e, ho, se⟩
  | _ => none

/-- JSON decoding of a cookie list, element by element. -/
def decodeCookies : List Json → Option (List Cookie)
  | [] => some []
  | j :: js =>
      match decodeCookie j, decodeCookies js with
      | some c, some cs => some (c :: cs)
      | _, _ => none

/-- JSON decoding of a stored session record (an array of cookies). -/
def decodeRecord : Json → Option (List Cookie)
  | .arr js => decodeCookies js
  | _ => none

/-- The filesystem, modelled as a path-to-content association list; the newest
write for a path shadows the older ones, as `fs.writeFileSync` fully replaces
the prior file. -/
abbrev FS := List (String × Json)

/-- Model of `fs.writeFileSync`: the new content fully replaces any prior file. -/
def fsWrite (fs : FS) (p : String) (j : Json) : FS := (p, j) :: fs

/-- Model of `fs.existsSync` plus `fs.readFileSync`: the current content at a path. -/
def fsRead (fs : FS) (p : String) : Option Json := fs.lookup p

/-- One live browser page: an identity for the underlying tab and its current URL. -/
structure Page where
  id : Nat
  url : String
  deriving DecidableEq

/-- The gesture engine object of `src/gesture-engine.ts`, holding its bound page. -/
structure GestureEngine where
  page : Page
  deriving DecidableEq

/-- Observable side effects of the client and the gesture engine, in order. -/
inductive Event where
  | navigate : String → Event
  | waitForSelector : String → Event
  | focus : String → Event
  | typeChar : Char → Event
  | delay : ℚ → Event
  | click : String → Event
  | waitForNavigation : Event
  | setCookies : Nat → Event
  | saveFile : String → Event
  deriving DecidableEq

/-- Tests whether an event is a navigation to the given URL. -/
def Event.isNavTo (u : String) : Event → Bool
  | .navigate v => v == u
  | _ => false

/-- Tests whether an event is a single-character keyboard insertion. -/
def Event.isTypeCharEv : Event → Bool
  | .typeChar _ => true
  | _ => false

/-- Tests whether an event is a click. -/
def Event.isClickEv : Event → Bool
  | .click _ => true
  | _ => false

/-- Tests whether an event is a pacing delay. -/
def Event.isDelayEv : Event → Bool
  | .delay _ => true
  | _ => false

namespace GestureEngine

/-- A min/max millisecond pacing range, as passed to the gesture engine. -/
structure PacingConfig where
  min : ℚ
  max : ℚ
  deriving DecidableEq

/-- Model of `GestureEngine.waitRandomTime`: the delay value
`Math.floor(r * (max - min + 1)) + min` computed from one `Math.random()`
draw `r`. -/
def waitRandomTime (min max r : ℚ) : ℚ :=
  ((⌊r * (max - min + 1)⌋ : ℤ) : ℚ) + min

/-- The default per-character pacing of `GestureEngine.typeText`. -/
def defaultTypeDelay : PacingConfig := ⟨50, 150⟩

/-- The per-character loop of `GestureEngine.typeText`: each character insertion is
followed by one independently drawn pacing delay; `i` indexes the random draws. -/
def typeCharsTrace (cfg : PacingConfig) (rs : Nat → ℚ) : List Char → Nat → List Event
  | [], _ => []
  | c :: cs, i =>
      .typeChar c :: .delay (waitRandomTime cfg.min cfg.max (rs i)) ::
        typeCharsTrace cfg rs cs (i + 1)

/-- Model of `GestureEngine.typeText`: wait for the selector, focus it, then type
the text one character at a time with a randomized pause after each character. -/
def typeTextTrace (sel : String) (text : String) (cfg : PacingConfig) (rs : Nat → ℚ) :
    List Event :=
  .waitForSelector sel :: .focus sel :: typeCharsTrace cfg rs text.data 0

/-- Model of `GestureEngine.click`: wait for the selector, then click it. -/
def clickTrace (sel : String) : List Event :=
  [.waitForSelector sel, .click sel]

/-- Outcome of one `GestureEngine.scrollPage` call. -/
structure ScrollResult where
  finalPos : ℤ
  ticks : ℕ
  duration : ℚ
  deriving DecidableEq

/-- Model of `GestureEngine.scrollPage`: a repeating 1000 ms timer scrolls the
document by `amount` on each tick while the call itself sleeps for a random
duration in the 2000 to 3000 ms range and then clears the timer.  The pacing
config only paces the asynchronous callback body and affects neither the tick
cadence nor the total duration; no DOM readiness signal is consulted. -/
def scrollPage (pos amount : ℤ) (cfg : PacingConfig) (r : ℚ) : ScrollResult :=
  let d := waitRandomTime 2000 3000 r
  let n := (⌊d⌋).toNat / 1000
  ⟨pos + n * amount, n, d⟩

/-- Model of the `GestureEngine` constructor: when a process-wide instance already
exists, it returns that existing instance (leaving the static field unchanged);
only otherwise does it create an instance bound to the supplied page.  Returns
the object the `new` expression evaluates to, and the static `instance` field
afterwards. -/
def construct (inst : Option GestureEngine) (pg : Page) :
    GestureEngine × Option GestureEngine :=
  match inst with
  | some g => (g, some g)
  | none => (⟨pg⟩, some ⟨pg⟩)

/-- Model of `GestureEngine.getInstance`: constructs only when no instance exists. -/
def getInstance (inst : Option GestureEngine) (pg : Page) :
    GestureEngine × Option GestureEngine :=
  match inst with
  | some g => (g, some g)
  | none => construct none pg

end GestureEngine

/-- Client state of `src/client.ts`: the nullable browser, page and gesture
engine fields, the configured session base path, and the headless flag. -/
structure TikTokClient where
  browser : Option Nat
  page : Option Page
  sessionBasePath : String
  headless : Bool
  gestureEngine : Option GestureEngine
  deriving DecidableEq

namespace TikTokClient

/-- Model of Node `path.join` on two segments. -/
def pathJoin (a b : String) : String := a ++ "/" ++ b

/-- Model of `TikTokClient.hashClientId`: the sha256 hex digest of the client id. -/
def hashClientId (clientId : String) : String :=
  SHA256.sha256Hex (SHA256.strBytes clientId)

/-- Model of `TikTokClient.getUserSessionPath`: the per-client session directory. -/
def getUserSessionPath (basePath clientId : String) : String :=
  pathJoin basePath (hashClientId clientId)

/-- Model of `TikTokClient.getSessionFilePath`: the per-client cookie file path. -/
def getSessionFilePath (basePath clientId : String) : String :=
  pathJoin (getUserSessionPath basePath clientId) Paths.cookiesFile

/-- Exceptions the modelled client operations can raise. -/
inductive AuthError where
  | nullDeref
  | parseError
  | browserNotInitialized
  deriving DecidableEq

/-- Final state of one `authenticate` call, following the state machine of the
specification: the cached-session short circuit and a post-login URL no longer
containing the login path segment end `authenticated`; a URL still containing
it ends `failed`. -/
inductive AuthState where
  | authenticated
  | failed
  deriving DecidableEq

/-- Model of `TikTokClient.saveSession`: throws when no page exists, otherwise
serializes the live page cookies and writes them, fully replacing the file. -/
def saveSession (pageOpt : Option Page) (liveCookies : List Cookie) (fs : FS)
    (basePath clientId : String) : Except AuthError FS :=
  match pageOpt with
  | none => .error .browserNotInitialized
  | some _ => .ok (fsWrite fs (getSessionFilePath basePath clientId) (encodeRecord liveCookies))

/-- Model of `TikTokClient.loadSession`: absent file gives `none` without error;
an existing file is parsed, a malformed one raises a parse error. -/
def loadSession (fs : FS) (basePath clientId : String) :
    Except AuthError (Option (List Cookie)) :=
  match fsRead fs (getSessionFilePath basePath clientId) with
  | none => .ok none
  | some j =>
      match decodeRecord j with
      | some cs => .ok (some cs)
      | none => .error .parseError

/-- Model of `TikTokClient.close`: when a browser is open, closes it and clears
the browser and page fields; the gesture engine field is left as is. -/
def close (c : TikTokClient) : TikTokClient :=
  match c.browser with
  | none => c
  | some _ => { c with browser := none, page := none }

/-- Model of `TikTokClient.initialize` (written here as `initClient`): launches a
fresh browser and page, navigates to the base URL (the environment decides the
URL the page lands on), and constructs a gesture engine for the new page.
Returns the updated client, the process-wide singleton after construction, and
the emitted events. -/
def initClient (c : TikTokClient) (inst : Option GestureEngine)
    (freshBrowser freshPage : Nat) (landedUrl : String) :
    TikTokClient × Option GestureEngine × List Event :=
  let pg : Page := ⟨freshPage, landedUrl⟩
  let ge := GestureEngine.construct inst pg
  ({ c with browser := some freshBrowser, page := some pg, gestureEngine := some ge.1 },
   ge.2, [.navigate URLs.base])

/-- The cached-session condition of `authenticate`:
`cookies && cookies.length > 0 && !currentUrl.includes(URLs.login)`. -/
def shortCircuit (cookies? : Option (List Cookie)) (currentUrl : String) : Bool :=
  (match cookies? with
   | some cs => decide (0 < cs.length)
   | none => false)
  && !(strIncludes currentUrl URLs.login)

/-- Environment choices resolved by the browser and the site during one
`authenticate` call: the URL the initial navigation lands on, the URL after the
post-submit navigation settles, the live page cookies at save time, fresh
browser and page identities, and the stream of `Math.random()` draws. -/
structure AuthEnv where
  landedUrl : String
  navUrl : String
  liveCookies : List Cookie
  freshBrowser : Nat
  freshPage : Nat
  rands : Nat → ℚ

/-- Result of one `authenticate` call that returned normally. -/
structure AuthResult where
  client : TikTokClient
  singleton : Option GestureEngine
  fs : FS
  trace : List Event
  state : AuthState

/-- The username field selector used by `authenticate`. -/
def usernameSelector : String := "input[name=\"username\"]"

/-- The password field selector used by `authenticate`. -/
def passwordSelector : String := "input[type=\"password\"]"

/-- The submit button selector used by `authenticate`. -/
def submitSelector : String := "button[type=\"submit\"]"

/-- Model of `TikTokClient.authenticate`: close any open browser, start a fresh
session, load the stored session if present (injecting its cookies), and either
short-circuit on a cached session or run the credential login flow; after the
post-submit navigation settles, the session is saved exactly when the resulting
URL no longer contains the `login` path segment, and no exception is raised for
a failed login. -/
def authenticate (c : TikTokClient) (inst : Option GestureEngine) (fs : FS)
    (clientId password : String) (env : AuthEnv) : Except AuthError AuthResult :=
  let c0 := close c
  let ini := initClient c0 inst env.freshBrowser env.freshPage env.landedUrl
  let c1 := ini.1
  let inst1 := ini.2.1
  let ev1 := ini.2.2
  match loadSession fs c1.sessionBasePath clientId with
  | .error e => .error e
  | .ok cookies? =>
      let ev2 := ev1 ++ (match cookies? with
        | some cs => [Event.setCookies cs.length]
        | none => [])
      match c1.page with
      | none => .error .nullDeref
      | some pg =>
          let currentUrl := pg.url
          if shortCircuit cookies? currentUrl then
            .ok ⟨c1, inst1, fs, ev2, .authenticated⟩
          else
            match c1.gestureEngine with
            | none => .error .nullDeref
            | some _ =>
                let ev3 := ev2 ++ Event.navigate URLs.login ::
                  (GestureEngine.typeTextTrace usernameSelector clientId
                      GestureEngine.defaultTypeDelay env.rands
                   ++ GestureEngine.typeTextTrace passwordSelector password
                        GestureEngine.defaultTypeDelay
                        (fun i => env.rands (clientId.length + i))
                   ++ GestureEngine.clickTrace submitSelector
                   ++ [Event.waitForNavigation])
                let newUrl := env.navUrl
                let c2 := { c1 with page := some { pg with url := newUrl } }
                if strIncludes newUrl "login" then
                  .ok ⟨c2, inst1, fs, ev3, .failed⟩
                else
                  match saveSession c2.page env.liveCookies fs c1.sessionBasePath clientId with
                  | .error e => .error e
                  | .ok fs2 =>
                      .ok ⟨c2, inst1, fs2,
                           ev3 ++ [Event.saveFile (getSessionFilePath c1.sessionBasePath clientId)],
                           .authenticated⟩

end TikTokClient

/-- Hexadecimal character predicate: a lowercase hex digit. -/
def isHexChar (c : Char) : Prop :=
  (48 ≤ c.toNat ∧ c.toNat ≤ 57) ∨ (97 ≤ c.toNat ∧ c.toNat ≤ 102)

instance (c : Char) : Decidable (isHexChar c) := by
  unfold isHexChar
  infer_instance

/-! Sanity anchors for the SHA-256 model against the standard test vectors. -/

example : SHA256.sha256Hex (SHA256.strBytes "abc") =
    "ba7816bf8f01cfea414140de5dae2223b00361a396177a9cb410ff61f20015ad" := by rfl

example : SHA256.sha256Hex (SHA256.strBytes "") =
    "e3b0c44298fc1c149afbf4c8996fb92427ae41e4649b934ca495991b7852b855" := by rfl

/-- Every hex digit of a nibble value is a lowercase hexadecimal character. -/
theorem hexDigit_isHex : ∀ n, n < 16 → isHexChar (SHA256.hexDigit n) := by decide

/-- Every character of a word rendering is a lowercase hexadecimal character. -/
theorem mem_wordToHex_isHex {c : Char} {w : Nat} (h : c ∈ SHA256.wordToHex w) :
    isHexChar c := by
  simp only [SHA256.wordToHex, List.mem_cons, List.not_mem_nil, or_false] at h
  rcases h with h | h | h | h | h | h | h | h <;> subst h <;>
    exact hexDigit_isHex _ (Nat.mod_lt _ (by norm_num))

/-- A decoded encoded cookie is the original cookie. -/
theorem decodeCookie_encodeCookie (c : Cookie) : decodeCookie (encodeCookie c) = some c := by
  rfl

/-- A decoded encoded session record is the original cookie list. -/
theorem decodeRecord_encodeRecord (cs : List Cookie) :
    decodeRecord (encodeRecord cs) = some cs := by
  induction cs with
  | nil => rfl
  | cons c cs ih =>
      simp only [encodeRecord, decodeRecord, List.map_cons, decodeCookies,
        decodeCookie_encodeCookie] at *
      rw [ih]

/-- Reading a path immediately after writing it returns the written content. -/
theorem fsRead_fsWrite (fs : FS) (p : String) (j : Json) :
    fsRead (fsWrite fs p j) p = some j := by
  simp [fsRead, fsWrite, List.lookup]

/-- C5: for every identity string, `hashClientId` produces a 64-character
lowercase hexadecimal digest, and the session file path is exactly the join of
the configured base directory, that digest, and the configured cookie
filename.  The hash is a plain function of its argument, hence pure, total and
deterministic. -/
theorem hashClientId_hex_digest_and_path (clientId basePath : String) :
    (TikTokClient.hashClientId clientId).length = 64 ∧
    (∀ ch ∈ (TikTokClient.hashClientId clientId).data, isHexChar ch) ∧
    TikTokClient.getSessionFilePath basePath clientId =
      basePath ++ "/" ++ TikTokClient.hashClientId clientId ++ "/" ++ Paths.cookiesFile := by
  refine ⟨?_, ?_, ?_⟩
  · show (String.mk (SHA256.digestHexChars _)).data.length = 64
    simp [SHA256.digestHexChars, SHA256.wordToHex]
  · intro ch hch
    show isHexChar ch
    have : ch ∈ SHA256.digestHexChars (SHA256.sha256Words (SHA256.strBytes clientId)) := hch
    simp only [SHA256.digestHexChars, List.mem_append] at this
    rcases this with ((((((h | h) | h) | h) | h) | h) | h) | h <;> exact mem_wordToHex_isHex h
  · show (basePath ++ "/" ++ TikTokClient.hashClientId clientId) ++ "/" ++ Paths.cookiesFile = _
    simp [String.append_assoc]

/-- C5 witness: the digest and path properties evaluated at a concrete
identity and base directory. -/
theorem hashClientId_hex_digest_and_path_witness :
    (TikTokClient.hashClientId "alice").length = 64 ∧
    (∀ ch ∈ (TikTokClient.hashClientId "alice").data, isHexChar ch) ∧
    TikTokClient.getSessionFilePath Paths.sessionBase "alice" =
      Paths.sessionBase ++ "/" ++ TikTokClient.hashClientId "alice" ++ "/" ++ Paths.cookiesFile :=
  hashClientId_hex_digest_and_path "alice" Paths.sessionBase

/-- C3: saving a session record and immediately loading it for the same
identity returns an equal cookie list, and a second save for the same identity
fully replaces the first record. -/
theorem saveSession_loadSession_roundtrip (basePath clientId : String) (fs : FS) (pg : Page)
    (cs1 cs2 : List Cookie) :
    ∃ fs1, TikTokClient.saveSession (some pg) cs1 fs basePath clientId = .ok fs1 ∧
      TikTokClient.loadSession fs1 basePath clientId = .ok (some cs1) ∧
      ∃ fs2, TikTokClient.saveSession (some pg) cs2 fs1 basePath clientId = .ok fs2 ∧
        TikTokClient.loadSession fs2 basePath clientId = .ok (some cs2) := by
  refine ⟨_, rfl, ?_, _, rfl, ?_⟩ <;>
    simp [TikTokClient.loadSession, fsRead_fsWrite, decodeRecord_encodeRecord]

/-- C4: for every identity with no file at the derived path, `loadSession`
returns the absent value without raising; when a stored record exists there,
`loadSession` deserializes and returns it. -/
theorem loadSession_absent_or_stored (basePath clientId : String) (fs : FS) :
    (fsRead fs (TikTokClient.getSessionFilePath basePath clientId) = none →
      TikTokClient.loadSession fs basePath clientId = .ok none) ∧
    ∀ cs, fsRead fs (TikTokClient.getSessionFilePath basePath clientId) = some (encodeRecord cs) →
      TikTokClient.loadSession fs basePath clientId = .ok (some cs) := by
  constructor
  · intro h
    simp [TikTokClient.loadSession, h]
  · intro cs h
    simp [TikTokClient.loadSession, h, decodeRecord_encodeRecord]

/-- C4 witness: the empty filesystem has no file for the identity and load
returns the absent value; a filesystem holding a stored record for the
identity loads back that record. -/
theorem loadSession_absent_or_stored_witness :
    TikTokClient.loadSession [] Paths.sessionBase "alice" = .ok none ∧
    TikTokClient.loadSession
        [(TikTokClient.getSessionFilePath Paths.sessionBase "alice",
          encodeRecord [⟨"sid", "v", "tiktok.com", "/", 0, true, true⟩])]
        Paths.sessionBase "alice" =
      .ok (some [⟨"sid", "v", "tiktok.com", "/", 0, true, true⟩]) :=
  ⟨(loadSession_absent_or_stored Paths.sessionBase "alice" []).1 rfl,
   (loadSession_absent_or_stored Paths.sessionBase "alice"
      [(TikTokClient.getSessionFilePath Paths.sessionBase "alice",
        encodeRecord [⟨"sid", "v", "tiktok.com", "/", 0, true, true⟩])]).2
     [⟨"sid", "v", "tiktok.com", "/", 0, true, true⟩]
     (fsRead_fsWrite [] (TikTokClient.getSessionFilePath Paths.sessionBase "alice")
       (encodeRecord [⟨"sid", "v", "tiktok.com", "/", 0, true, true⟩]))⟩

/-- C7: constructing a `GestureEngine` while an instance already exists returns
the prior instance and leaves the process-wide singleton bound to the old page
rather than rebinding it to the newly supplied page. -/
theorem construct_keeps_stale_binding :
    (GestureEngine.construct (some ⟨⟨1, "about:blank"⟩⟩) ⟨2, URLs.base⟩).2 =
      some ⟨⟨1, "about:blank"⟩⟩ ∧
    ((GestureEngine.construct (some ⟨⟨1, "about:blank"⟩⟩) ⟨2, URLs.base⟩).1).page ≠
      (⟨2, URLs.base⟩ : Page) := by
  refine ⟨rfl, ?_⟩
  decide

/-- C8 counterexample: the click trace of the gesture engine contains no
pacing delay event, refuting the stated pacing delay after the click. -/
theorem click_has_no_trailing_delay :
    ¬ ∃ e ∈ GestureEngine.clickTrace "button[type=\"submit\"]", e.isDelayEv = true := by
  decide

/-- C8 amended: for every selector, `click` first waits for the target element
and then performs the click; no pacing delay event is emitted by `click`. -/
theorem click_waits_then_clicks (sel : String) :
    GestureEngine.clickTrace sel = [.waitForSelector sel, .click sel] ∧
    (GestureEngine.clickTrace sel).countP Event.isDelayEv = 0 :=
  ⟨rfl, rfl⟩

/-- For one random draw in the unit interval and integer bounds, the computed
delay value lands in the closed interval between the bounds. -/
theorem waitRandomTime_bounds (mn mx : ℤ) (r : ℚ) (h0 : 0 ≤ r) (h1 : r < 1)
    (hle : mn ≤ mx) :
    (mn : ℚ) ≤ GestureEngine.waitRandomTime (mn : ℚ) (mx : ℚ) r ∧
    GestureEngine.waitRandomTime (mn : ℚ) (mx : ℚ) r ≤ (mx : ℚ) := by
  have hcast : ((mx : ℚ) - (mn : ℚ) + 1) = ((mx - mn + 1 : ℤ) : ℚ) := by push_cast; ring
  have hnposZ : (0 : ℤ) < mx - mn + 1 := by omega
  have hnposQ : (0 : ℚ) < (mx : ℚ) - (mn : ℚ) + 1 := by
    rw [hcast]; exact_mod_cast hnposZ
  have hfl0 : 0 ≤ ⌊r * ((mx : ℚ) - (mn : ℚ) + 1)⌋ :=
    Int.floor_nonneg.mpr (mul_nonneg h0 hnposQ.le)
  have hflt : r * ((mx : ℚ) - (mn : ℚ) + 1) < ((mx - mn + 1 : ℤ) : ℚ) := by
    rw [← hcast]
    calc r * ((mx : ℚ) - (mn : ℚ) + 1) < 1 * ((mx : ℚ) - (mn : ℚ) + 1) :=
          mul_lt_mul_of_pos_right h1 hnposQ
      _ = (mx : ℚ) - (mn : ℚ) + 1 := one_mul _
  have hfl_le : ⌊r * ((mx : ℚ) - (mn : ℚ) + 1)⌋ ≤ mx - mn := by
    have := Int.floor_lt.mpr hflt
    omega
  unfold GestureEngine.waitRandomTime
  constructor
  · have h : (0 : ℚ) ≤ ((⌊r * ((mx : ℚ) - (mn : ℚ) + 1)⌋ : ℤ) : ℚ) := by
      exact_mod_cast hfl0
    linarith
  · have h : ((⌊r * ((mx : ℚ) - (mn : ℚ) + 1)⌋ : ℤ) : ℚ) ≤ ((mx - mn : ℤ) : ℚ) := by
      exact_mod_cast hfl_le
    push_cast at h
    linarith

/-- The per-character loop emits exactly one character insertion per character. -/
theorem countP_typeCharsTrace (cfg : GestureEngine.PacingConfig) (rs : Nat → ℚ)
    (cs : List Char) (i : Nat) :
    (GestureEngine.typeCharsTrace cfg rs cs i).countP Event.isTypeCharEv = cs.length := by
  induction cs generalizing i with
  | nil => rfl
  | cons c cs ih =>
      simp [GestureEngine.typeCharsTrace, List.countP_cons, Event.isTypeCharEv, ih]

/-- Every delay in the per-character loop is a `waitRandomTime` value of some draw. -/
theorem typeCharsTrace_delay_mem (cfg : GestureEngine.PacingConfig) (rs : Nat → ℚ)
    (cs : List Char) (i : Nat) (q : ℚ)
    (h : Event.delay q ∈ GestureEngine.typeCharsTrace cfg rs cs i) :
    ∃ j, q = GestureEngine.waitRandomTime cfg.min cfg.max (rs j) := by
  induction cs generalizing i with
  | nil => simp [GestureEngine.typeCharsTrace] at h
  | cons c cs ih =>
      simp only [GestureEngine.typeCharsTrace, List.mem_cons] at h
      rcases h with h | h | h
      · exact absurd h (by simp)
      · exact ⟨i, by injection h⟩
      · exact ih _ h

/-- C6 amended: for every selector, text and pacing config with integer bounds
`0 ≤ min ≤ max`, `typeText` emits exactly one character insertion per character
of the text, and every pacing delay it inserts lies within the closed interval
from `min` to `max`, provided each random draw lies in the unit interval. -/
theorem typeText_per_char_pacing (sel text : String) (mn mx : ℤ) (rs : Nat → ℚ)
    (hmn : 0 ≤ mn) (hle : mn ≤ mx) (hr : ∀ i, 0 ≤ rs i ∧ rs i < 1) :
    ((GestureEngine.typeTextTrace sel text ⟨(mn : ℚ), (mx : ℚ)⟩ rs).countP Event.isTypeCharEv
        = text.length) ∧
    ∀ q, Event.delay q ∈ GestureEngine.typeTextTrace sel text ⟨(mn : ℚ), (mx : ℚ)⟩ rs →
      (mn : ℚ) ≤ q ∧ q ≤ (mx : ℚ) := by
  constructor
  · have hlen : text.length = text.data.length := rfl
    rw [hlen]
    simp [GestureEngine.typeTextTrace, List.countP_cons, Event.isTypeCharEv,
      countP_typeCharsTrace]
  · intro q hq
    simp only [GestureEngine.typeTextTrace, List.mem_cons] at hq
    rcases hq with h | h | h
    · exact absurd h (by simp)
    · exact absurd h (by simp)
    · obtain ⟨j, hj⟩ := typeCharsTrace_delay_mem _ _ _ _ _ h
      rw [hj]
      exact waitRandomTime_bounds mn mx (rs j) (hr j).1 (hr j).2 hle

/-- C6 witness: the pacing property evaluated for a two-character text with the
degenerate config `min = max = 5` and the all-zero random stream. -/
theorem typeText_per_char_pacing_witness :
    ((GestureEngine.typeTextTrace "input" "ab" ⟨((5 : ℤ) : ℚ), ((5 : ℤ) : ℚ)⟩ (fun _ => 0)).countP
        Event.isTypeCharEv = "ab".length) ∧
    ∀ q, Event.delay q ∈
        GestureEngine.typeTextTrace "input" "ab" ⟨((5 : ℤ) : ℚ), ((5 : ℤ) : ℚ)⟩ (fun _ => 0) →
      ((5 : ℤ) : ℚ) ≤ q ∧ q ≤ ((5 : ℤ) : ℚ) :=
  typeText_per_char_pacing "input" "ab" 5 5 (fun _ => 0) (by norm_num) (by norm_num)
    (fun _ => by norm_num)

/-- C6 counterexample: the config `min = 0`, `max = 1/2` satisfies
`0 ≤ min ≤ max`, yet with the admissible draw `3/4` the inserted delay equals
`1`, which lies outside the closed interval up to `max`. -/
theorem typeText_pacing_counterexample :
    ((0 : ℚ) ≤ 0 ∧ (0 : ℚ) ≤ 1 / 2 ∧ (0 : ℚ) ≤ 3 / 4 ∧ (3 / 4 : ℚ) < 1) ∧
    Event.delay 1 ∈ GestureEngine.typeTextTrace "input" "a" ⟨0, 1 / 2⟩ (fun _ => 3 / 4) ∧
    ¬ ((1 : ℚ) ≤ 1 / 2) := by
  refine ⟨by norm_num, ?_, by norm_num⟩
  have h : GestureEngine.waitRandomTime 0 (1 / 2) (3 / 4) = 1 := by
    unfold GestureEngine.waitRandomTime
    norm_num
  have hmem : Event.delay 1 ∈ [Event.waitForSelector "input", Event.focus "input",
      Event.typeChar 'a', Event.delay (GestureEngine.waitRandomTime 0 (1 / 2) (3 / 4))] := by
    rw [h]
    simp
  exact hmem

/-- C9: the scroll call sleeps a duration bounded between 2000 and 3000
milliseconds and then stops its timer; the number of 1000 millisecond ticks is
therefore at most three, and the final scroll position advances by exactly the
scroll amount on each tick.  The result is a total function of its inputs and
consults no DOM readiness signal. -/
theorem scrollPage_bounded_duration (pos amount : ℤ) (cfg : GestureEngine.PacingConfig)
    (r : ℚ) (h0 : 0 ≤ r) (h1 : r < 1) :
    2000 ≤ (GestureEngine.scrollPage pos amount cfg r).duration ∧
    (GestureEngine.scrollPage pos amount cfg r).duration ≤ 3000 ∧
    (GestureEngine.scrollPage pos amount cfg r).ticks ≤ 3 ∧
    (GestureEngine.scrollPage pos amount cfg r).finalPos =
      pos + (GestureEngine.scrollPage pos amount cfg r).ticks * amount := by
  have hb := waitRandomTime_bounds 2000 3000 r h0 h1 (by norm_num)
  push_cast at hb
  refine ⟨hb.1, hb.2, ?_, rfl⟩
  show (⌊GestureEngine.waitRandomTime 2000 3000 r⌋).toNat / 1000 ≤ 3
  have hfl : ⌊GestureEngine.waitRandomTime 2000 3000 r⌋ ≤ 3000 := by
    have := Int.floor_le_floor (α := ℚ) hb.2
    simpa using this
  have htn : (⌊GestureEngine.waitRandomTime 2000 3000 r⌋).toNat ≤ 3000 := by omega
  calc (⌊GestureEngine.waitRandomTime 2000 3000 r⌋).toNat / 1000
      ≤ 3000 / 1000 := Nat.div_le_div_right htn
    _ = 3 := by norm_num

/-- C9 witness: the scroll bounds evaluated at position 0, amount 100, the
fixed pacing config 10 to 10, and the draw one half. -/
theorem scrollPage_bounded_duration_witness :
    2000 ≤ (GestureEngine.scrollPage 0 100 ⟨10, 10⟩ (1 / 2)).duration ∧
    (GestureEngine.scrollPage 0 100 ⟨10, 10⟩ (1 / 2)).duration ≤ 3000 ∧
    (GestureEngine.scrollPage 0 100 ⟨10, 10⟩ (1 / 2)).ticks ≤ 3 ∧
    (GestureEngine.scrollPage 0 100 ⟨10, 10⟩ (1 / 2)).finalPos =
      0 + (GestureEngine.scrollPage 0 100 ⟨10, 10⟩ (1 / 2)).ticks * 100 :=
  scrollPage_bounded_duration 0 100 ⟨10, 10⟩ (1 / 2) (by norm_num) (by norm_num)

/-- The session loader never raises a null dereference; its only error is a
parse error on a malformed stored file. -/
theorem loadSession_no_nullDeref (fs : FS) (basePath clientId : String) :
    TikTokClient.loadSession fs basePath clientId ≠ .error .nullDeref := by
  unfold TikTokClient.loadSession
  split
  · simp
  · split <;> simp

/-- Reduction of `authenticate` when the cached-session condition holds: the
call returns the freshly initialized client, the untouched filesystem, the
initialization trace, and the authenticated state. -/
theorem authenticate_shortCircuit_eq (br : Option Nat) (pg0 : Option Page) (sb : String)
    (hd : Bool) (ge0 : Option GestureEngine) (inst : Option GestureEngine) (fs : FS)
    (clientId password : String) (lu nu : String) (lc : List Cookie) (fb fp : Nat)
    (rands : Nat → ℚ) (cookies? : Option (List Cookie))
    (hload : TikTokClient.loadSession fs sb clientId = .ok cookies?)
    (hsc : TikTokClient.shortCircuit cookies? lu = true) :
    TikTokClient.authenticate ⟨br, pg0, sb, hd, ge0⟩ inst fs clientId password
        ⟨lu, nu, lc, fb, fp, rands⟩ =
      .ok ⟨⟨some fb, some ⟨fp, lu⟩, sb, hd, some (GestureEngine.construct inst ⟨fp, lu⟩).1⟩,
           (GestureEngine.construct inst ⟨fp, lu⟩).2, fs,
           [Event.navigate URLs.base] ++ (match cookies? with
             | some cs => [Event.setCookies cs.length]
             | none => []),
           .authenticated⟩ := by
  cases br <;>
    (simp only [TikTokClient.authenticate, TikTokClient.close, TikTokClient.initClient]
     simp only [hload]
     simp [hsc]
     cases cookies? <;> rfl)

/-- Reduction of `authenticate` when the cached-session condition fails: the
credential flow runs, and the outcome branches only on whether the settled URL
still contains the `login` path segment. -/
theorem authenticate_login_eq (br : Option Nat) (pg0 : Option Page) (sb : String)
    (hd : Bool) (ge0 : Option GestureEngine) (inst : Option GestureEngine) (fs : FS)
    (clientId password : String) (lu nu : String) (lc : List Cookie) (fb fp : Nat)
    (rands : Nat → ℚ) (cookies? : Option (List Cookie))
    (hload : TikTokClient.loadSession fs sb clientId = .ok cookies?)
    (hsc : TikTokClient.shortCircuit cookies? lu = false) :
    TikTokClient.authenticate ⟨br, pg0, sb, hd, ge0⟩ inst fs clientId password
        ⟨lu, nu, lc, fb, fp, rands⟩ =
      (if strIncludes nu "login" then
        .ok ⟨⟨some fb, some ⟨fp, nu⟩, sb, hd, some (GestureEngine.construct inst ⟨fp, lu⟩).1⟩,
             (GestureEngine.construct inst ⟨fp, lu⟩).2, fs,
             ([Event.navigate URLs.base] ++ (match cookies? with
                | some cs => [Event.setCookies cs.length]
                | none => [])) ++ Event.navigate URLs.login ::
               (GestureEngine.typeTextTrace TikTokClient.usernameSelector clientId
                   GestureEngine.defaultTypeDelay rands
                ++ GestureEngine.typeTextTrace TikTokClient.passwordSelector password
                     GestureEngine.defaultTypeDelay (fun i => rands (clientId.length + i))
                ++ GestureEngine.clickTrace TikTokClient.submitSelector
                ++ [Event.waitForNavigation]),
             .failed⟩
      else
        .ok ⟨⟨some fb, some ⟨fp, nu⟩, sb, hd, some (GestureEngine.construct inst ⟨fp, lu⟩).1⟩,
             (GestureEngine.construct inst ⟨fp, lu⟩).2,
             fsWrite fs (TikTokClient.getSessionFilePath sb clientId) (encodeRecord lc),
             (([Event.navigate URLs.base] ++ (match cookies? with
                | some cs => [Event.setCookies cs.length]
                | none => [])) ++ Event.navigate URLs.login ::
               (GestureEngine.typeTextTrace TikTokClient.usernameSelector clientId
                   GestureEngine.defaultTypeDelay rands
                ++ GestureEngine.typeTextTrace TikTokClient.passwordSelector password
                     GestureEngine.defaultTypeDelay (fun i => rands (clientId.length + i))
                ++ GestureEngine.clickTrace TikTokClient.submitSelector
                ++ [Event.waitForNavigation]))
               ++ [Event.saveFile (TikTokClient.getSessionFilePath sb clientId)],
             .authenticated⟩) := by
  cases br <;>
    (simp only [TikTokClient.authenticate, TikTokClient.close, TikTokClient.initClient]
     simp only [hload]
     simp [hsc, TikTokClient.saveSession]
     cases cookies? <;> rfl)

/-- C1: a loaded session with at least one cookie and a current URL that does
not contain the login URL makes `authenticate` return in the authenticated
state without touching the stored session and without any navigation to the
login URL, character insertion, or click. -/
theorem authenticate_cached_short_circuit (c : TikTokClient) (inst : Option GestureEngine)
    (fs : FS) (clientId password : String) (env : TikTokClient.AuthEnv) (cs : List Cookie)
    (hload : TikTokClient.loadSession fs c.sessionBasePath clientId = .ok (some cs))
    (hlen : 0 < cs.length)
    (hurl : strIncludes env.landedUrl URLs.login = false) :
    ∃ res, TikTokClient.authenticate c inst fs clientId password env = .ok res ∧
      res.state = .authenticated ∧ res.fs = fs ∧
      res.trace.all
        (fun e => !(e.isNavTo URLs.login) && !e.isTypeCharEv && !e.isClickEv) = true := by
  obtain ⟨br, pg0, sb, hd, ge0⟩ := c
  obtain ⟨lu, nu, lc, fb, fp, rands⟩ := env
  have hsc : TikTokClient.shortCircuit (some cs) lu = true := by
    simp [TikTokClient.shortCircuit, hlen]
    exact hurl
  refine ⟨_, authenticate_shortCircuit_eq br pg0 sb hd ge0 inst fs clientId password
    lu nu lc fb fp rands (some cs) hload hsc, rfl, rfl, ?_⟩
  have hbase : (URLs.base == URLs.login) = false := by decide
  simp [Event.isNavTo, Event.isTypeCharEv, Event.isClickEv, hbase]

/-- C1 witness: a stored one-cookie session and a landed URL equal to the base
URL short-circuit a concrete `authenticate` call. -/
theorem authenticate_cached_short_circuit_witness :
    ∃ res, TikTokClient.authenticate ⟨none, none, "b", true, none⟩ none
        (fsWrite [] (TikTokClient.getSessionFilePath "b" "alice")
          (encodeRecord [⟨"sid", "v", "tiktok.com", "/", 0, true, true⟩]))
        "alice" "pw" ⟨URLs.base, URLs.base, [], 1, 2, fun _ => 0⟩ = .ok res ∧
      res.state = .authenticated ∧
      res.fs = fsWrite [] (TikTokClient.getSessionFilePath "b" "alice")
          (encodeRecord [⟨"sid", "v", "tiktok.com", "/", 0, true, true⟩]) ∧
      res.trace.all
        (fun e => !(e.isNavTo URLs.login) && !e.isTypeCharEv && !e.isClickEv) = true :=
  authenticate_cached_short_circuit ⟨none, none, "b", true, none⟩ none _ "alice" "pw"
    ⟨URLs.base, URLs.base, [], 1, 2, fun _ => 0⟩
    [⟨"sid", "v", "tiktok.com", "/", 0, true, true⟩]
    (by simp [TikTokClient.loadSession, fsRead_fsWrite, decodeRecord_encodeRecord])
    (by norm_num) rfl

/-- C2: whenever the cached-session condition fails, `authenticate` returns
normally (no exception), and it persists the live cookies through the session
store exactly when the settled URL no longer contains the `login` path
segment; otherwise the filesystem is untouched and the final state is failed. -/
theorem authenticate_post_submit_persist (c : TikTokClient) (inst : Option GestureEngine)
    (fs : FS) (clientId password : String) (env : TikTokClient.AuthEnv)
    (cookies? : Option (List Cookie))
    (hload : TikTokClient.loadSession fs c.sessionBasePath clientId = .ok cookies?)
    (hsc : TikTokClient.shortCircuit cookies? env.landedUrl = false) :
    ∃ res, TikTokClient.authenticate c inst fs clientId password env = .ok res ∧
      (strIncludes env.navUrl "login" = true → res.fs = fs ∧ res.state = .failed) ∧
      (strIncludes env.navUrl "login" = false →
        res.fs = fsWrite fs (TikTokClient.getSessionFilePath c.sessionBasePath clientId)
            (encodeRecord env.liveCookies) ∧
        res.state = .authenticated) := by
  obtain ⟨br, pg0, sb, hd, ge0⟩ := c
  obtain ⟨lu, nu, lc, fb, fp, rands⟩ := env
  have key := authenticate_login_eq br pg0 sb hd ge0 inst fs clientId password
    lu nu lc fb fp rands cookies? hload hsc
  cases hnav : strIncludes nu "login" with
  | true =>
      simp only [hnav, if_true] at key
      exact ⟨_, key, fun _ => ⟨rfl, rfl⟩, fun h => by simp [hnav] at h⟩
  | false =>
      simp only [hnav, if_false] at key
      exact ⟨_, key, fun h => by simp [hnav] at h, fun _ => ⟨rfl, rfl⟩⟩

/-- C2 witness: with no stored session, a concrete `authenticate` call returns
normally, and the persist-exactly-on-success dichotomy holds at that input. -/
theorem authenticate_post_submit_persist_witness :
    ∃ res, TikTokClient.authenticate ⟨none, none, "b", true, none⟩ none []
        "alice" "pw" ⟨URLs.base, "https://www.tiktok.com/foryou", [], 1, 2, fun _ => 0⟩ =
          .ok res ∧
      (strIncludes "https://www.tiktok.com/foryou" "login" = true →
        res.fs = [] ∧ res.state = .failed) ∧
      (strIncludes "https://www.tiktok.com/foryou" "login" = false →
        res.fs = fsWrite [] (TikTokClient.getSessionFilePath "b" "alice") (encodeRecord []) ∧
        res.state = .authenticated) :=
  authenticate_post_submit_persist ⟨none, none, "b", true, none⟩ none [] "alice" "pw"
    ⟨URLs.base, "https://www.tiktok.com/foryou", [], 1, 2, fun _ => 0⟩ none rfl rfl

/-- C10: after the initialization step the browser, page, and gesture engine
fields are all non-null, and an `authenticate` call can never fail with a null
dereference: every unguarded page or gesture engine use happens after those
fields were populated. -/
theorem initClient_nonnull_and_authenticate_no_nullDeref
    (c : TikTokClient) (inst : Option GestureEngine) (clientId : String)
    (fb fp : Nat) (landed : String) (fs : FS) (password : String)
    (env : TikTokClient.AuthEnv) :
    ((TikTokClient.initClient (TikTokClient.close c) inst fb fp landed).1.browser ≠ none ∧
     (TikTokClient.initClient (TikTokClient.close c) inst fb fp landed).1.page ≠ none ∧
     (TikTokClient.initClient (TikTokClient.close c) inst fb fp landed).1.gestureEngine ≠ none) ∧
    TikTokClient.authenticate c inst fs clientId password env ≠ .error .nullDeref := by
  refine ⟨⟨by simp [TikTokClient.initClient], by simp [TikTokClient.initClient],
    by simp [TikTokClient.initClient]⟩, ?_⟩
  obtain ⟨br, pg0, sb, hd, ge0⟩ := c
  obtain ⟨lu, nu, lc, fb2, fp2, rands⟩ := env
  cases hl : TikTokClient.loadSession fs sb clientId with
  | error e =>
      have hne : e ≠ .nullDeref := by
        have h0 := loadSession_no_nullDeref fs sb clientId
        rw [hl] at h0
        intro he
        exact h0 (by rw [he])
      cases br <;>
        (simp only [TikTokClient.authenticate, TikTokClient.close, TikTokClient.initClient]
         simp only [hl]
         simp [hne])
  | ok cookies? =>
      cases br <;>
        (simp only [TikTokClient.authenticate, TikTokClient.close, TikTokClient.initClient]
         simp only [hl]
         split
         · simp
         · split <;> simp [TikTokClient.saveSession])

end TikTokJS
